import Mathlib

/-!
Shallow embedding of `django-userena`'s account lifecycle and profile
visibility logic (`userena/models.py`) together with the differently
prefixed configuration pair of `userina/settings.py`.

Timestamps are modelled as integers counting seconds; a Python
`datetime.timedelta(days=d)` is `d * 86400` seconds.  External
collaborators (template rendering, the mail transport, the permission
lookup, the gravatar service) are passed in as explicit function
arguments.  The mail transport is modelled by a predicate `sendOk`
telling whether a given `send_mail` call succeeds; a `false` answer
models the call raising an exception, which in the Python code aborts
the rest of the method.  Each mail-sending method returns the list of
`send_mail` calls it attempted, in order, plus a flag telling whether an
exception escaped.
-/

namespace Userena

/-- Seconds in one day, the unit conversion behind `datetime.timedelta(days=...)`. -/
def secondsPerDay : Int := 86400

/-- Python `datetime.timedelta(days=d)`, measured in seconds. -/
def timedelta_days (d : Nat) : Int := (d : Int) * secondsPerDay

/-- The configuration surface read by `userena/models.py` (the
`USERENA_`-prefixed values of `userena.settings` and
`settings.DEFAULT_FROM_EMAIL`), together with the `USERINA_`-prefixed
pair defined in `userina/settings.py`.  The values are abstract inputs
here; the defaulting of the `USERINA_` pair is modelled separately. -/
structure Config where
  USERENA_ACTIVATION_DAYS : Nat
  USERENA_ACTIVATED : String
  USERENA_USE_HTTPS : Bool
  USERENA_MUGSHOT_GRAVATAR : Bool
  USERENA_MUGSHOT_DEFAULT : String
  USERENA_MUGSHOT_SIZE : Nat
  USERINA_VERIFICATION_DAYS : Nat
  USERINA_VERIFIED : String
  DEFAULT_FROM_EMAIL : String
deriving Repr, DecidableEq

/-- From `userina/settings.py`: `getattr(settings, 'USERINA_VERIFICATION_DAYS', 2)`.
The optional argument models the presence or absence of the attribute on
the Django settings object. -/
def USERINA_VERIFICATION_DAYS (settings_value : Option Nat) : Nat :=
  settings_value.getD 2

/-- From `userina/settings.py`: `getattr(settings, 'USERINA_VERIFIED', 'ALREADY_VERIFIED')`. -/
def USERINA_VERIFIED (settings_value : Option String) : String :=
  settings_value.getD "ALREADY_VERIFIED"

/-- The fields of `django.contrib.auth.models.User` read by this module. -/
structure DjangoUser where
  username : String
  email : String
  date_joined : Int
deriving Repr, DecidableEq

/-- The stored fields of the `UserenaSignup` model. -/
structure UserenaSignup where
  user : DjangoUser
  last_active : Option Int
  activation_key : String
  activation_notification_send : Bool
  email_unconfirmed : String
  email_confirmation_key : String
  email_confirmation_key_created : Option Int
deriving Repr, DecidableEq

/-- `UserenaSignup.activation_key_expired` (models.py lines 163-181).
`now` is the value `datetime.datetime.now()` returns during the call. -/
def activation_key_expired (cfg : Config) (now : Int) (self : UserenaSignup) : Bool :=
  let expiration_days := timedelta_days cfg.USERENA_ACTIVATION_DAYS
  let expiration_date := self.user.date_joined + expiration_days
  if self.activation_key == cfg.USERENA_ACTIVATED then true
  else if now ≥ expiration_date then true
  else false

/-- Characters that Python's `str.splitlines` treats as line boundaries. -/
def is_linebreak (c : Char) : Bool :=
  c = '\n' || c = '\r' || c = '\u000b' || c = '\u000c' ||
  c = '\u001c' || c = '\u001d' || c = '\u001e' ||
  c = '\u0085' || c = '\u2028' || c = '\u2029'

/-- One step of Python `str.splitlines`: the flag records whether the
previous character was a consumed `'\r'`, so that a following `'\n'` is
the second half of one `'\r''\n'` boundary rather than a boundary of its
own.  Every other line-break character ends a line by itself, and a
trailing boundary does not produce an extra empty line. -/
def splitlinesAux : Bool → List Char → List (List Char)
  | _, [] => []
  | prevCR, c :: rest =>
    if c == '\n' && prevCR then splitlinesAux false rest
    else if is_linebreak c then [] :: splitlinesAux (c == '\r') rest
    else
      match splitlinesAux false rest with
      | [] => [[c]]
      | l :: ls => (c :: l) :: ls

/-- Python `str.splitlines` on a list of characters. -/
def splitlines (cs : List Char) : List (List Char) := splitlinesAux false cs

/-- The idiom `''.join(s.splitlines())` used on every mail subject in
`userena/models.py`. -/
def join_splitlines (s : String) : String :=
  String.mk (splitlines s.toList).flatten

/-- A string is a single line when it holds no line-break character. -/
def single_line (s : String) : Bool :=
  s.toList.all (fun c => !is_linebreak c)

/-- One `send_mail(subject, message, from_email, recipient_list)` call. -/
structure Mail where
  subject : String
  message : String
  from_email : String
  recipient_list : List String
deriving Repr, DecidableEq

/-- The hexadecimal digit with value `n % 16`. -/
def hexChar (n : Nat) : Char :=
  (String.toList "0123456789abcdef").getD (n % 16) '0'

/-- A fixed-width little-endian hexadecimal rendering of `n`, `len` digits. -/
def hexDigits (len : Nat) (n : Nat) : String :=
  String.mk ((List.range len).map (fun i => hexChar (n / 16 ^ i)))

/-- A computable stand-in for a digest function on strings. -/
def mixcode (s : String) : Nat :=
  s.toList.foldl (fun a c => a * 31 + c.toNat + 1) 7

/-- Modelled from the spec: the Secret Generator `generate_sha1` is imported
from `userena/utils.py`, which is not among the sources here.  Per the spec it
maps a random salt plus a seed string to a pair of the salt and an opaque
40-character-equivalent hex-style token.  `rand` stands for the randomness the
real implementation draws; `mixcode` is a concrete computable stand-in for the
digest. -/
def generate_sha1 (rand : Nat) (string : String) : String × String :=
  let salt := hexDigits 5 rand
  let hash := hexDigits 40 (mixcode (salt ++ string))
  (salt, hash)

/-- The template context built by `UserenaSignup.send_confirmation_email`
(models.py lines 130-134). -/
structure ConfirmationContext where
  user : DjangoUser
  new_email : String
  protocol : String
  confirmation_key : String
  site : String
deriving Repr, DecidableEq

/-- The template context built by `UserenaSignup.send_activation_email`
(models.py lines 196-200). -/
structure ActivationContext where
  user : DjangoUser
  protocol : String
  activation_days : Nat
  activation_key : String
  site : String
deriving Repr, DecidableEq

/-- The context dictionary of `send_confirmation_email`, including the
`protocol` computation of lines 126-128.  `site` is the value
`Site.objects.get_current()` yields. -/
def confirmation_context (cfg : Config) (site : String) (self : UserenaSignup) :
    ConfirmationContext :=
  let protocol := if cfg.USERENA_USE_HTTPS then "https" else "http"
  { user := self.user,
    new_email := self.email_unconfirmed,
    protocol := protocol,
    confirmation_key := self.email_confirmation_key,
    site := site }

/-- The `send_mail` call to the old address (models.py lines 137-148):
subject rendered and joined to one line, message rendered, sent from
`DEFAULT_FROM_EMAIL` to `[self.user.email]`.  `renderC` is the
`render_to_string` collaborator, taking a template name and the context. -/
def confirmation_mail_old (cfg : Config) (site : String)
    (renderC : String → ConfirmationContext → String) (self : UserenaSignup) : Mail :=
  let context := confirmation_context cfg site self
  let subject_old := renderC "userena/emails/confirmation_email_subject_old.txt" context
  let subject_old := join_splitlines subject_old
  let message_old := renderC "userena/emails/confirmation_email_message_old.txt" context
  { subject := subject_old,
    message := message_old,
    from_email := cfg.DEFAULT_FROM_EMAIL,
    recipient_list := [self.user.email] }

/-- The `send_mail` call to the new address (models.py lines 150-161), sent to
`[self.email_unconfirmed]`. -/
def confirmation_mail_new (cfg : Config) (site : String)
    (renderC : String → ConfirmationContext → String) (self : UserenaSignup) : Mail :=
  let context := confirmation_context cfg site self
  let subject_new := renderC "userena/emails/confirmation_email_subject_new.txt" context
  let subject_new := join_splitlines subject_new
  let message_new := renderC "userena/emails/confirmation_email_message_new.txt" context
  { subject := subject_new,
    message := message_new,
    from_email := cfg.DEFAULT_FROM_EMAIL,
    recipient_list := [self.email_unconfirmed] }

/-- `UserenaSignup.send_confirmation_email` (models.py lines 114-161): the old
address is mailed first, then the new address.  `sendOk m = false` models the
`send_mail` call for `m` raising; the raise propagates, so the method stops
there.  Returns the attempted `send_mail` calls in order and whether an
exception escaped. -/
def send_confirmation_email (cfg : Config) (site : String)
    (renderC : String → ConfirmationContext → String)
    (sendOk : Mail → Bool) (self : UserenaSignup) : List Mail × Bool :=
  let mail_old := confirmation_mail_old cfg site renderC self
  if sendOk mail_old then
    let mail_new := confirmation_mail_new cfg site renderC self
    if sendOk mail_new then ([mail_old, mail_new], false)
    else ([mail_old, mail_new], true)
  else ([mail_old], true)

/-- An observable effect of `change_email`: a database save of the record, or
an attempted outbound mail. -/
inductive Event where
  | save (record : UserenaSignup)
  | send (mail : Mail)
deriving Repr, DecidableEq

/-- The record saves appearing in a trace, in order. -/
def saves (trace : List Event) : List UserenaSignup :=
  trace.filterMap (fun e => match e with
    | Event.save record => some record
    | Event.send _ => none)

/-- `UserenaSignup.change_email` (models.py lines 88-112): stores the new
address in `email_unconfirmed`, stores a fresh confirmation key from
`generate_sha1(self.user.username)`, stamps `email_confirmation_key_created`
with `now`, saves the record, and only then calls
`send_confirmation_email`.  Returns the persisted record (the state the
database holds after the call, whether or not a send raised), the trace of
effects in order, and whether an exception escaped. -/
def change_email (cfg : Config) (site : String) (now : Int) (rand : Nat)
    (renderC : String → ConfirmationContext → String)
    (sendOk : Mail → Bool) (self : UserenaSignup) (email : String) :
    UserenaSignup × List Event × Bool :=
  let self := { self with email_unconfirmed := email }
  let (_salt, hash) := generate_sha1 rand self.user.username
  let self := { self with email_confirmation_key := hash }
  let self := { self with email_confirmation_key_created := some now }
  let sent := send_confirmation_email cfg site renderC sendOk self
  (self, Event.save self :: sent.1.map Event.send, sent.2)

/-- The context dictionary of `send_activation_email` (models.py lines
192-200), including the `protocol` computation. -/
def activation_context (cfg : Config) (site : String) (self : UserenaSignup) :
    ActivationContext :=
  let protocol := if cfg.USERENA_USE_HTTPS then "https" else "http"
  { user := self.user,
    protocol := protocol,
    activation_days := cfg.USERENA_ACTIVATION_DAYS,
    activation_key := self.activation_key,
    site := site }

/-- The single `send_mail` call of `send_activation_email` (models.py lines
202-211). -/
def activation_mail (cfg : Config) (site : String)
    (renderA : String → ActivationContext → String) (self : UserenaSignup) : Mail :=
  let context := activation_context cfg site self
  let subject := renderA "userena/emails/activation_email_subject.txt" context
  let subject := join_splitlines subject
  let message := renderA "userena/emails/activation_email_message.txt" context
  { subject := subject,
    message := message,
    from_email := cfg.DEFAULT_FROM_EMAIL,
    recipient_list := [self.user.email] }

/-- `UserenaSignup.send_activation_email` (models.py lines 183-211): renders
and sends one mail to the user's address and touches no stored field.  Returns
the record as the method leaves it, the attempted `send_mail` calls, and
whether an exception escaped. -/
def send_activation_email (cfg : Config) (site : String)
    (renderA : String → ActivationContext → String)
    (sendOk : Mail → Bool) (self : UserenaSignup) :
    UserenaSignup × List Mail × Bool :=
  let mail := activation_mail cfg site renderA self
  if sendOk mail then (self, [mail], false) else (self, [mail], true)

/-- The viewing identity handed to `can_view_profile`.  In Django an
authenticated viewer is a `User` instance while `AnonymousUser` is not, so
`is_user_instance` models the `isinstance(user, User)` test. -/
structure Viewer where
  is_user_instance : Bool
  name : String
deriving Repr, DecidableEq

/-- The stored fields of `UserenaBaseProfile` read by the methods here.
`mugshot` is the URL of the stored image, or `none` when the field is falsy. -/
structure UserenaBaseProfile where
  user : DjangoUser
  mugshot : Option String
  privacy : String
deriving Repr, DecidableEq

/-- `UserenaBaseProfile.get_mugshot_url` (models.py lines 267-297).
`get_gravatar` is the collaborator from `userena/utils.py`, taking the email,
the size and the default; its string result is returned as-is. -/
def get_mugshot_url (cfg : Config)
    (get_gravatar : String → Nat → String → String)
    (self : UserenaBaseProfile) : Option String :=
  match self.mugshot with
  | some mugshot_url => some mugshot_url
  | none =>
    if cfg.USERENA_MUGSHOT_GRAVATAR then
      some (get_gravatar self.user.email cfg.USERENA_MUGSHOT_SIZE
              cfg.USERENA_MUGSHOT_DEFAULT)
    else
      if (["404", "mm", "identicon", "monsterid", "wavatar"].contains
            cfg.USERENA_MUGSHOT_DEFAULT) = false then
        some cfg.USERENA_MUGSHOT_DEFAULT
      else none

/-- `UserenaBaseProfile.can_view_profile` (models.py lines 299-342),
instrumented: the second component counts how many times the `get_perms`
collaborator (the external permission lookup) was consulted, so the
short-circuit order is observable.  `get_perms` takes the viewer and the
profile and returns the grant names. -/
def can_view_profile (get_perms : Viewer → UserenaBaseProfile → List String)
    (self : UserenaBaseProfile) (user : Viewer) : Bool × Nat :=
  if self.privacy == "open" then (true, 0)
  else if self.privacy == "registered" && user.is_user_instance then (true, 0)
  else if (get_perms user self).contains "view_profile" then (true, 1)
  else (false, 1)

/-! Concrete fixtures used to instantiate theorems at specific inputs. -/

/-- A concrete configuration. -/
def cfg0 : Config :=
  { USERENA_ACTIVATION_DAYS := 2,
    USERENA_ACTIVATED := "ALREADY_ACTIVATED",
    USERENA_USE_HTTPS := false,
    USERENA_MUGSHOT_GRAVATAR := false,
    USERENA_MUGSHOT_DEFAULT := "identicon",
    USERENA_MUGSHOT_SIZE := 80,
    USERINA_VERIFICATION_DAYS := 2,
    USERINA_VERIFIED := "ALREADY_VERIFIED",
    DEFAULT_FROM_EMAIL := "noreply@example.com" }

/-- A concrete user whose current address is the old one. -/
def user0 : DjangoUser :=
  { username := "alice", email := "old@example.com", date_joined := 0 }

/-- A concrete signup record with a pending email change. -/
def signup0 : UserenaSignup :=
  { user := user0,
    last_active := none,
    activation_key := "k",
    activation_notification_send := false,
    email_unconfirmed := "new@example.com",
    email_confirmation_key := "ck",
    email_confirmation_key_created := none }

/-- A concrete renderer for the confirmation templates. -/
def render0 : String → ConfirmationContext → String := fun _ _ => "subject line"

/-- A concrete renderer for the activation templates. -/
def renderA0 : String → ActivationContext → String := fun _ _ => "subject line"

/-- A concrete closed profile. -/
def profile0 : UserenaBaseProfile :=
  { user := user0, mugshot := none, privacy := "closed" }

/-- A permission lookup granting `view_profile` to everyone. -/
def perms_granting : Viewer → UserenaBaseProfile → List String :=
  fun _ _ => ["view_profile"]

/-- A permission lookup granting nothing. -/
def perms_none : Viewer → UserenaBaseProfile → List String := fun _ _ => []

/-- An anonymous viewer: not a `User` instance. -/
def viewer_anon : Viewer := { is_user_instance := false, name := "anon" }

/-! Helper lemmas shared by the theorems below. -/

theorem splitlinesAux_flatten (cs : List Char) (b : Bool) :
    (splitlinesAux b cs).flatten = cs.filter (fun c => !is_linebreak c) := by
  induction cs generalizing b with
  | nil => rfl
  | cons c rest ih =>
    simp only [splitlinesAux]
    by_cases h1 : (c == '\n' && b) = true
    · rw [if_pos h1]
      obtain ⟨hc, -⟩ := (Bool.and_eq_true _ _).mp h1
      rw [beq_iff_eq] at hc
      subst hc
      simp [List.filter_cons, is_linebreak, ih]
    · rw [if_neg h1]
      by_cases h2 : is_linebreak c = true
      · rw [if_pos h2]
        simp [List.filter_cons, h2, ih]
      · rw [if_neg h2]
        have h2f : is_linebreak c = false := by simpa using h2
        have hfilter : List.filter (fun c => !is_linebreak c) (c :: rest) =
            c :: List.filter (fun c => !is_linebreak c) rest := by
          simp [List.filter_cons, h2f]
        rw [hfilter]
        cases hsplit : splitlinesAux false rest with
        | nil =>
          have hrest := ih false
          rw [hsplit] at hrest
          simp [← hrest]
        | cons l ls =>
          have hrest := ih false
          rw [hsplit] at hrest
          simp only [List.flatten_cons, ← hrest]
          simp

theorem join_splitlines_toList (s : String) :
    (join_splitlines s).toList = s.toList.filter (fun c => !is_linebreak c) := by
  show (splitlines s.toList).flatten = _
  exact splitlinesAux_flatten _ _

theorem single_line_join_splitlines (s : String) :
    single_line (join_splitlines s) = true := by
  rw [single_line, List.all_eq_true]
  intro c hc
  rw [join_splitlines_toList] at hc
  exact (List.mem_filter.mp hc).2

theorem hexDigits_length (len n : Nat) : (hexDigits len n).length = len := by
  show ((List.range len).map (fun i => hexChar (n / 16 ^ i))).length = len
  simp

theorem confirmation_mail_old_subject (cfg : Config) (site : String)
    (renderC : String → ConfirmationContext → String) (s : UserenaSignup) :
    (confirmation_mail_old cfg site renderC s).subject =
      join_splitlines (renderC "userena/emails/confirmation_email_subject_old.txt"
        (confirmation_context cfg site s)) := rfl

theorem confirmation_mail_new_subject (cfg : Config) (site : String)
    (renderC : String → ConfirmationContext → String) (s : UserenaSignup) :
    (confirmation_mail_new cfg site renderC s).subject =
      join_splitlines (renderC "userena/emails/confirmation_email_subject_new.txt"
        (confirmation_context cfg site s)) := rfl

theorem activation_mail_subject (cfg : Config) (site : String)
    (renderA : String → ActivationContext → String) (s : UserenaSignup) :
    (activation_mail cfg site renderA s).subject =
      join_splitlines (renderA "userena/emails/activation_email_subject.txt"
        (activation_context cfg site s)) := rfl

theorem saves_cons_save (r : UserenaSignup) (t : List Event) :
    saves (Event.save r :: t) = r :: saves t := by
  simp [saves]

theorem saves_map_send (l : List Mail) : saves (l.map Event.send) = [] := by
  induction l with
  | nil => rfl
  | cons m rest _ => simp [saves]

/-! Theorems about the embedded program. -/

/-- C1: for every account, `activation_key_expired` returns `true` if and only
if `activation_key` equals the consumed sentinel `USERENA_ACTIVATED` or the
current time has reached `user.date_joined` plus `USERENA_ACTIVATION_DAYS`
days.  In particular it is `true` for the sentinel regardless of elapsed time,
`true` once the window has elapsed regardless of token value, and `false`
otherwise; as a function of the configuration, the current time and the stored
record it has no side effects. -/
theorem activation_key_expired_iff (cfg : Config) (now : Int) (s : UserenaSignup) :
    activation_key_expired cfg now s = true ↔
      (s.activation_key = cfg.USERENA_ACTIVATED ∨
       now ≥ s.user.date_joined + timedelta_days cfg.USERENA_ACTIVATION_DAYS) := by
  unfold activation_key_expired
  by_cases h1 : s.activation_key = cfg.USERENA_ACTIVATED
  · simp [h1]
  · by_cases h2 : now ≥ s.user.date_joined + timedelta_days cfg.USERENA_ACTIVATION_DAYS
    · simp [h1, h2]
    · simp [h1, h2]

/-- C7: `activation_key_expired` reads only the `USERENA_`-prefixed
configuration values; for any two assignments of the `USERINA_`-prefixed pair
of `userina/settings.py` (each obtained from an arbitrary Django settings
attribute, or its default), with every other input equal, the result is the
same. -/
theorem activation_key_expired_ignores_userina (cfg : Config)
    (d1 d2 : Option Nat) (v1 v2 : Option String) (now : Int) (s : UserenaSignup) :
    activation_key_expired
      { cfg with USERINA_VERIFICATION_DAYS := USERINA_VERIFICATION_DAYS d1,
                 USERINA_VERIFIED := USERINA_VERIFIED v1 } now s =
    activation_key_expired
      { cfg with USERINA_VERIFICATION_DAYS := USERINA_VERIFICATION_DAYS d2,
                 USERINA_VERIFIED := USERINA_VERIFIED v2 } now s := rfl

/-- C2: `can_view_profile` decides in short-circuit order: an open profile is
visible to everyone with no permission lookup; a registered profile is visible
to any authenticated `User` instance with no permission lookup; otherwise the
result is exactly the presence of the `view_profile` grant for the viewer on
this profile, found by one consultation of the permission collaborator.
Consequently a closed profile is invisible to an anonymous viewer with no
grants and visible to a viewer holding the explicit grant. -/
theorem can_view_profile_spec
    (get_perms : Viewer → UserenaBaseProfile → List String)
    (self : UserenaBaseProfile) (user : Viewer) :
    (self.privacy = "open" →
       can_view_profile get_perms self user = (true, 0)) ∧
    (self.privacy = "registered" → user.is_user_instance = true →
       can_view_profile get_perms self user = (true, 0)) ∧
    (self.privacy ≠ "open" →
       ¬(self.privacy = "registered" ∧ user.is_user_instance = true) →
       can_view_profile get_perms self user =
         ((get_perms user self).contains "view_profile", 1)) ∧
    (self.privacy = "closed" → user.is_user_instance = false →
       get_perms user self = [] →
       can_view_profile get_perms self user = (false, 1)) ∧
    (self.privacy = "closed" →
       (get_perms user self).contains "view_profile" = true →
       (can_view_profile get_perms self user).1 = true) := by
  refine ⟨?_, ?_, ?_, ?_, ?_⟩
  · intro h
    simp [can_view_profile, h]
  · intro h hu
    simp [can_view_profile, h, hu]
  · intro h1 h2
    have hcond : (self.privacy == "registered" && user.is_user_instance) = false := by
      by_cases hr : self.privacy = "registered"
      · cases hi : user.is_user_instance
        · simp [hr, hi]
        · exact absurd ⟨hr, hi⟩ h2
      · simp [hr]
    have hopen : (self.privacy == "open") = false := by simpa using h1
    cases hc : (get_perms user self).contains "view_profile" with
    | false =>
      have hmem : "view_profile" ∉ get_perms user self := by simpa using hc
      simp [can_view_profile, hopen, hcond, hc, hmem]
    | true =>
      have hmem : "view_profile" ∈ get_perms user self := by simpa using hc
      simp [can_view_profile, hopen, hcond, hc, hmem]
  · intro h hu hp
    simp [can_view_profile, h, hu, hp]
  · intro h hc
    have hmem : "view_profile" ∈ get_perms user self := by simpa using hc
    simp [can_view_profile, h, hmem]

/-- C6: `get_mugshot_url` follows the fallback chain: the stored image's URL
when present; else the gravatar URL for the user's email when the gravatar
flag is enabled; else the configured default unless it is one of the reserved
gravatar keywords `404`, `mm`, `identicon`, `monsterid`, `wavatar`; else
`none`.  In particular with no stored image, gravatar disabled and default
`identicon`, the result is `none`, not the literal string. -/
theorem get_mugshot_url_spec (cfg : Config)
    (gg : String → Nat → String → String) (self : UserenaBaseProfile) :
    (∀ u, self.mugshot = some u → get_mugshot_url cfg gg self = some u) ∧
    (self.mugshot = none → cfg.USERENA_MUGSHOT_GRAVATAR = true →
       get_mugshot_url cfg gg self =
         some (gg self.user.email cfg.USERENA_MUGSHOT_SIZE
                 cfg.USERENA_MUGSHOT_DEFAULT)) ∧
    (self.mugshot = none → cfg.USERENA_MUGSHOT_GRAVATAR = false →
       (["404", "mm", "identicon", "monsterid", "wavatar"].contains
          cfg.USERENA_MUGSHOT_DEFAULT) = false →
       get_mugshot_url cfg gg self = some cfg.USERENA_MUGSHOT_DEFAULT) ∧
    (self.mugshot = none → cfg.USERENA_MUGSHOT_GRAVATAR = false →
       (["404", "mm", "identicon", "monsterid", "wavatar"].contains
          cfg.USERENA_MUGSHOT_DEFAULT) = true →
       get_mugshot_url cfg gg self = none) ∧
    (self.mugshot = none → cfg.USERENA_MUGSHOT_GRAVATAR = false →
       cfg.USERENA_MUGSHOT_DEFAULT = "identicon" →
       get_mugshot_url cfg gg self = none) := by
  refine ⟨?_, ?_, ?_, ?_, ?_⟩
  · intro u hu
    simp [get_mugshot_url, hu]
  · intro hm hg
    simp [get_mugshot_url, hm, hg]
  · intro hm hg hd
    have hd2 : cfg.USERENA_MUGSHOT_DEFAULT ∉
        ["404", "mm", "identicon", "monsterid", "wavatar"] := by simpa using hd
    simp [get_mugshot_url, hm, hg, hd2]
  · intro hm hg hd
    have hd2 : cfg.USERENA_MUGSHOT_DEFAULT ∈
        ["404", "mm", "identicon", "monsterid", "wavatar"] := by simpa using hd
    simp [get_mugshot_url, hm, hg, hd2]
  · intro hm hg hd
    simp [get_mugshot_url, hm, hg, hd]

/-- Witness for the visibility decision at concrete inputs: a closed profile
is visible to a viewer holding the explicit grant and invisible to an
anonymous viewer with no grants. -/
theorem can_view_profile_spec_witness :
    (can_view_profile perms_granting profile0 viewer_anon).1 = true ∧
    can_view_profile perms_none profile0 viewer_anon = (false, 1) :=
  ⟨(can_view_profile_spec perms_granting profile0 viewer_anon).2.2.2.2 rfl (by decide),
   (can_view_profile_spec perms_none profile0 viewer_anon).2.2.2.1 rfl rfl rfl⟩

/-- Witness for the mugshot fallback at a concrete input: no stored image,
gravatar disabled, default `identicon` gives `none`. -/
theorem get_mugshot_url_spec_witness :
    get_mugshot_url cfg0 (fun _ _ _ => "gravatar-url") profile0 = none :=
  (get_mugshot_url_spec cfg0 (fun _ _ _ => "gravatar-url") profile0).2.2.2.2 rfl rfl rfl

/-- C8: `send_activation_email` attempts exactly one `send_mail` call, to the
account's user email, whose template context carries the activation key, the
configured activation window in days, the transport scheme (`https` iff the
secure flag is set, else `http`), the user identity and the site identity, and
it leaves every stored field of the record unchanged. -/
theorem send_activation_email_spec (cfg : Config) (site : String)
    (renderA : String → ActivationContext → String)
    (sendOk : Mail → Bool) (s : UserenaSignup) :
    (send_activation_email cfg site renderA sendOk s).1 = s ∧
    (send_activation_email cfg site renderA sendOk s).2.1 =
      [activation_mail cfg site renderA s] ∧
    (activation_mail cfg site renderA s).recipient_list = [s.user.email] ∧
    (activation_mail cfg site renderA s).subject =
      join_splitlines (renderA "userena/emails/activation_email_subject.txt"
        (activation_context cfg site s)) ∧
    (activation_mail cfg site renderA s).message =
      renderA "userena/emails/activation_email_message.txt"
        (activation_context cfg site s) ∧
    activation_context cfg site s =
      { user := s.user,
        protocol := if cfg.USERENA_USE_HTTPS then "https" else "http",
        activation_days := cfg.USERENA_ACTIVATION_DAYS,
        activation_key := s.activation_key,
        site := site } ∧
    ((activation_context cfg site s).protocol = "https" ↔
      cfg.USERENA_USE_HTTPS = true) := by
  refine ⟨?_, ?_, rfl, rfl, rfl, rfl, ?_⟩
  · cases h : sendOk (activation_mail cfg site renderA s) <;>
      simp [send_activation_email, h]
  · cases h : sendOk (activation_mail cfg site renderA s) <;>
      simp [send_activation_email, h]
  · cases h : cfg.USERENA_USE_HTTPS <;> simp [activation_context, h]

/-- C3 is false on the code: at this concrete input every `send_mail` call
raises, so the send to the old (current) address fails, and the method stops
there: the only attempted call is the old-address one, and the new-address
mail is never attempted. -/
theorem send_confirmation_email_failure_counterexample :
    send_confirmation_email cfg0 "example.com" render0 (fun _ => false) signup0 =
      ([confirmation_mail_old cfg0 "example.com" render0 signup0], true) ∧
    (confirmation_mail_old cfg0 "example.com" render0 signup0).recipient_list =
      ["old@example.com"] ∧
    (confirmation_mail_new cfg0 "example.com" render0 signup0).recipient_list =
      ["new@example.com"] ∧
    confirmation_mail_new cfg0 "example.com" render0 signup0 ∉
      (send_confirmation_email cfg0 "example.com" render0 (fun _ => false) signup0).1 := by
  decide

/-- C3 amended: the two `send_mail` calls of `send_confirmation_email` are
sequential, not independent: whenever the send to the old (current) address
raises, the method ends with that exception and the send to the new address is
not attempted — the attempted-call list is exactly the old-address mail. -/
theorem send_confirmation_email_sequential (cfg : Config) (site : String)
    (renderC : String → ConfirmationContext → String)
    (sendOk : Mail → Bool) (s : UserenaSignup)
    (h : sendOk (confirmation_mail_old cfg site renderC s) = false) :
    send_confirmation_email cfg site renderC sendOk s =
      ([confirmation_mail_old cfg site renderC s], true) := by
  simp [send_confirmation_email, h]

/-- Witness for the sequential-sends theorem at a concrete input. -/
theorem send_confirmation_email_sequential_witness :
    send_confirmation_email cfg0 "example.com" render0 (fun _ => false) signup0 =
      ([confirmation_mail_old cfg0 "example.com" render0 signup0], true) :=
  send_confirmation_email_sequential cfg0 "example.com" render0
    (fun _ => false) signup0 rfl

/-- C4: repeated `change_email` calls are last-write-wins: after a second call
the persisted record is exactly what the second call alone would have
produced; in particular `email_unconfirmed` is the second address and the
stored confirmation key and timestamp are those generated by the second call,
with no queueing of the first pending change. -/
theorem change_email_last_write_wins (cfg : Config) (site : String)
    (now1 now2 : Int) (rand1 rand2 : Nat)
    (renderC : String → ConfirmationContext → String)
    (sendOk1 sendOk2 : Mail → Bool) (s : UserenaSignup) (email1 email2 : String) :
    (change_email cfg site now2 rand2 renderC sendOk2
       (change_email cfg site now1 rand1 renderC sendOk1 s email1).1 email2).1 =
      (change_email cfg site now2 rand2 renderC sendOk2 s email2).1 ∧
    (change_email cfg site now2 rand2 renderC sendOk2
       (change_email cfg site now1 rand1 renderC sendOk1 s email1).1 email2).1.email_unconfirmed
      = email2 ∧
    (change_email cfg site now2 rand2 renderC sendOk2
       (change_email cfg site now1 rand1 renderC sendOk1 s email1).1 email2).1.email_confirmation_key
      = (generate_sha1 rand2 s.user.username).2 ∧
    (change_email cfg site now2 rand2 renderC sendOk2
       (change_email cfg site now1 rand1 renderC sendOk1 s email1).1 email2).1.email_confirmation_key_created
      = some now2 := by
  refine ⟨?_, ?_, ?_, ?_⟩ <;> simp [change_email, generate_sha1]

/-- C5: `change_email` persists the updated record (new address, fresh
confirmation key, fresh timestamp) before either notification send: the save
is the first effect in the trace and the only save, and the persisted record
does not depend on whether the sends succeed — a send failure does not roll
the stored state back. -/
theorem change_email_persists_before_sends (cfg : Config) (site : String)
    (now : Int) (rand : Nat)
    (renderC : String → ConfirmationContext → String)
    (sendOk : Mail → Bool) (s : UserenaSignup) (email : String) :
    (change_email cfg site now rand renderC sendOk s email).1.email_unconfirmed = email ∧
    (change_email cfg site now rand renderC sendOk s email).1.email_confirmation_key
      = (generate_sha1 rand s.user.username).2 ∧
    (change_email cfg site now rand renderC sendOk s email).1.email_confirmation_key_created
      = some now ∧
    (change_email cfg site now rand renderC sendOk s email).2.1.head? =
      some (Event.save (change_email cfg site now rand renderC sendOk s email).1) ∧
    saves (change_email cfg site now rand renderC sendOk s email).2.1 =
      [(change_email cfg site now rand renderC sendOk s email).1] ∧
    (∀ sendOk2 : Mail → Bool,
       (change_email cfg site now rand renderC sendOk2 s email).1 =
       (change_email cfg site now rand renderC sendOk s email).1) := by
  refine ⟨?_, ?_, ?_, ?_, ?_, ?_⟩
  · simp [change_email, generate_sha1]
  · simp [change_email, generate_sha1]
  · simp [change_email, generate_sha1]
  · simp [change_email, generate_sha1]
  · simp [change_email, generate_sha1, saves_cons_save, saves_map_send]
  · intro sendOk2
    simp [change_email, generate_sha1]

/-- C9: every subject handed to `send_mail` is a single line: in the
email-change confirmation sends (old-address and new-address) and in the
activation send, the rendered subject has its embedded newlines stripped by
joining its lines before the call. -/
theorem mail_subjects_single_line (cfg : Config) (site : String)
    (renderC : String → ConfirmationContext → String)
    (renderA : String → ActivationContext → String)
    (sendOk : Mail → Bool) (s : UserenaSignup) :
    (∀ m ∈ (send_confirmation_email cfg site renderC sendOk s).1,
       single_line m.subject = true) ∧
    (∀ m ∈ (send_activation_email cfg site renderA sendOk s).2.1,
       single_line m.subject = true) := by
  constructor
  · intro m hm
    have hset : m = confirmation_mail_old cfg site renderC s ∨
        m = confirmation_mail_new cfg site renderC s := by
      simp only [send_confirmation_email] at hm
      by_cases h1 : sendOk (confirmation_mail_old cfg site renderC s)
      · rw [if_pos h1] at hm
        by_cases h2 : sendOk (confirmation_mail_new cfg site renderC s)
        · rw [if_pos h2] at hm
          simpa using hm
        · rw [if_neg h2] at hm
          simpa using hm
      · rw [if_neg h1] at hm
        simp at hm
        exact Or.inl hm
    rcases hset with h | h
    · rw [h, confirmation_mail_old_subject]
      exact single_line_join_splitlines _
    · rw [h, confirmation_mail_new_subject]
      exact single_line_join_splitlines _
  · intro m hm
    have hset : m = activation_mail cfg site renderA s := by
      simp only [send_activation_email] at hm
      by_cases h1 : sendOk (activation_mail cfg site renderA s)
      · rw [if_pos h1] at hm
        simpa using hm
      · rw [if_neg h1] at hm
        simpa using hm
    rw [hset, activation_mail_subject]
    exact single_line_join_splitlines _

/-- Witness for the single-line subjects at a concrete input. -/
theorem mail_subjects_single_line_witness :
    single_line (confirmation_mail_old cfg0 "example.com" render0 signup0).subject
      = true :=
  (mail_subjects_single_line cfg0 "example.com" render0 renderA0
      (fun _ => true) signup0).1
    (confirmation_mail_old cfg0 "example.com" render0 signup0) (by decide)

/-- C10: `change_email` accepts any string, the empty string included, and
stores it verbatim in `email_unconfirmed`, while always storing a fresh
non-empty (40-character) confirmation key and the current timestamp; calling
it with the empty string leaves a persisted record whose confirmation key is
set while `email_unconfirmed` is empty, and (with the sends succeeding) the
confirmation notification to the new address is still sent, with the empty
string as its recipient. -/
theorem change_email_empty_string (cfg : Config) (site : String)
    (now : Int) (rand : Nat)
    (renderC : String → ConfirmationContext → String)
    (s : UserenaSignup) (email : String) :
    (change_email cfg site now rand renderC (fun _ => true) s email).1.email_unconfirmed
      = email ∧
    (change_email cfg site now rand renderC (fun _ => true) s email).1.email_confirmation_key.length
      = 40 ∧
    (change_email cfg site now rand renderC (fun _ => true) s email).1.email_confirmation_key
      ≠ "" ∧
    (change_email cfg site now rand renderC (fun _ => true) s "").1.email_unconfirmed
      = "" ∧
    (change_email cfg site now rand renderC (fun _ => true) s "").1.email_confirmation_key_created
      = some now ∧
    (change_email cfg site now rand renderC (fun _ => true) s "").2.1 =
      [Event.save (change_email cfg site now rand renderC (fun _ => true) s "").1,
       Event.send (confirmation_mail_old cfg site renderC
         (change_email cfg site now rand renderC (fun _ => true) s "").1),
       Event.send (confirmation_mail_new cfg site renderC
         (change_email cfg site now rand renderC (fun _ => true) s "").1)] ∧
    (confirmation_mail_new cfg site renderC
        (change_email cfg site now rand renderC (fun _ => true) s "").1).recipient_list
      = [""] := by
  refine ⟨?_, ?_, ?_, ?_, ?_, ?_, ?_⟩
  · simp [change_email, generate_sha1]
  · simp [change_email, generate_sha1, hexDigits_length]
  · have hl : (change_email cfg site now rand renderC (fun _ => true) s
        email).1.email_confirmation_key.length = 40 := by
      simp [change_email, generate_sha1, hexDigits_length]
    intro he
    rw [he] at hl
    simp at hl
  · simp [change_email, generate_sha1]
  · simp [change_email, generate_sha1]
  · simp [change_email, generate_sha1, send_confirmation_email]
  · simp [change_email, generate_sha1, confirmation_mail_new]

end Userena
